import Mathlib

/-!
# Verification of the vrata tunnel client core

Shallow embedding of the vrata localtunnel client (Go) and proofs about it.
The embedding follows the source files `tunnel.go`, `cluster.go` and `api.go`:

* the Header Rewriter `HeaderHostTransformer.Transform` (tunnel.go),
* the connection pool `TunnelCluster` with `Start`, `Close`,
  `checkConnections`, and the per-slot `TunnelConnection` operations
  `connect`, `handleConnection`, `proxyConnection`, `isActive`, `close`
  (cluster.go),
* the session operations `NewTunnel`, `Close`, `URL` (tunnel.go) and
  `Connect` (api.go).

Byte streams are modelled as `List Char` (the inputs under study are ASCII).
Stateful Go code is modelled by explicit state passing; the concurrent
pool behaviour is modelled by a small-step interleaving relation.
-/

namespace Vrata

/-! ## Header Rewriter (tunnel.go, `HeaderHostTransformer.Transform`)

`Transform` wraps the source reader in a `bufio.Scanner` and finally calls
`io.Copy(writer, reader)` on the *underlying* reader.  We model the reader
as a one-shot in-memory stream (e.g. `strings.Reader`): the scanner's first
`Scan` drains the whole input (every input considered here is far below the
scanner's 4096-byte initial buffer) into the scanner's internal buffer, so
by the time `io.Copy` runs the underlying reader is already at EOF and the
copy transfers nothing.  The token sequence produced by the scanner on the
fully buffered data is exactly Go's `bufio.ScanLines` splitting, which we
reproduce below. -/

/-- `dropCR` of `bufio.ScanLines`: strip one trailing `\r` from a line. -/
def dropCR (l : List Char) : List Char :=
  if l.getLast? = some '\r' then l.dropLast else l

/-- Split a byte sequence at every `\n` (the separators are consumed).
Applied to empty input it yields one empty segment, mirroring
`strings.Split`-style splitting; `scannerTokens` repairs the edges to match
`bufio.ScanLines`. -/
def splitOnNl : List Char → List (List Char)
  | [] => [[]]
  | '\n' :: rest => [] :: splitOnNl rest
  | c :: rest =>
    match splitOnNl rest with
    | [] => [[c]]
    | l :: ls => (c :: l) :: ls

/-- The sequence of tokens `bufio.Scanner` with `ScanLines` produces on a
fully buffered byte sequence: empty data yields no token; otherwise the data
is split at `\n`, a trailing empty segment (data ending in `\n`) yields no
final token, and each token has one trailing `\r` stripped. -/
def scannerTokens (data : List Char) : List (List Char) :=
  if data = [] then []
  else
    let parts := splitOnNl data
    let parts := if parts.getLast? = some [] then parts.dropLast else parts
    parts.map dropCR

/-- `strings.ToLower` restricted to the ASCII inputs considered here. -/
def goToLower (l : List Char) : List Char := l.map Char.toLower

/-- The CRLF terminator `fmt.Fprintf(writer, "...\r\n")` appends. -/
def crlf : List Char := ['\r', '\n']

/-- The test `strings.HasPrefix(strings.ToLower(line), "host:")` from
`Transform`'s header loop. -/
def isHostHeader (line : List Char) : Bool :=
  "host:".toList.isPrefixOf (goToLower line)

/-- The replacement header `fmt.Fprintf(writer, "Host: %s\r\n", h.host)`. -/
def hostHeaderLine (host : List Char) : List Char :=
  "Host: ".toList ++ host ++ crlf

/-- The header loop of `Transform`: for each scanned line, an empty line
writes `\r\n` and breaks; a `Host:` line (case-insensitive) is replaced;
any other line is echoed with CRLF.  Lines after the blank line are never
scanned (the loop broke), and the bytes holding them sit in the scanner's
buffer, which `Transform` never consults again. -/
def renderHeaders (host : List Char) : List (List Char) → List Char
  | [] => []
  | line :: rest =>
    if line = [] then crlf
    else if isHostHeader line then hostHeaderLine host ++ renderHeaders host rest
    else (line ++ crlf) ++ renderHeaders host rest

/-- `HeaderHostTransformer.Transform` over a one-shot in-memory stream:
returns the bytes written to the sink and the returned `error`.
If the first `Scan` fails (empty input) the function returns
`scanner.Err()`, which is `nil` after a clean end of stream, having written
nothing.  Otherwise the request line is echoed with CRLF, the header loop
runs, and the final `io.Copy(writer, reader)` copies the remaining bytes of
the *underlying reader* — none, since the scanner drained it — and returns
`nil`. -/
def transform (host : List Char) (input : List Char) :
    List Char × Option String :=
  match scannerTokens input with
  | [] => ([], none)
  | firstLine :: rest => (firstLine ++ crlf ++ renderHeaders host rest, none)

/-! ## Errors and events

The Go code reports failures as `error` values sent on the shared
`events.Error` channel (capacity 10).  The constructors below name the
distinct error productions of the source. -/

/-- The `error` values the client produces. -/
inductive GoError where
  /-- `fmt.Errorf("invalid tunnel URL: %w", err)` in `TunnelCluster.Start`
  when `url.Parse` fails. -/
  | invalidURL (u : String)
  /-- `fmt.Errorf("could not determine host from URL: %s", ...)` in
  `TunnelCluster.Start`. -/
  | noHost (u : String)
  /-- `fmt.Errorf("failed to connect to %s: %w", address, err)` in
  `TunnelConnection.connect` (broker dial failure). -/
  | dialFailed (addr : String)
  /-- a local-target dial failure surfaced by `handleConnection`
  (the error returned by `connectToLocal`). -/
  | localDialFailed (addr : String)
  /-- `ctx.Err()` after cancellation. -/
  | ctxCanceled
deriving DecidableEq

/-! ## Data model (tunnel.go, cluster.go structs) -/

/-- `TunnelInfo`: the broker's registration response. -/
structure TunnelInfo where
  id : String
  url : String
  port : Int
  maxConn : Int
deriving DecidableEq

/-- `TunnelOptions`. -/
structure TunnelOptions where
  port : Int
  host : String
  subdomain : String
  localHost : String
  localHTTPS : Bool
deriving DecidableEq

/-- `TunnelConnection` observable state: the `active` flag and whether
`conn` holds a socket (`conn != nil`). -/
structure TunnelConnection where
  active : Bool
  hasConn : Bool
deriving DecidableEq

/-- `TunnelCluster` observable state: the slot list and the `closed` flag. -/
structure TunnelCluster where
  connections : List TunnelConnection
  closed : Bool
deriving DecidableEq

/-- `TunnelConnection.isActive`. -/
def TunnelConnection.isActive (c : TunnelConnection) : Bool := c.active

/-- `TunnelConnection.close`: if not active, return unchanged; otherwise
clear `active` and, when a socket is held, close and nil it. -/
def TunnelConnection.close (c : TunnelConnection) : TunnelConnection :=
  if !c.active then c else ⟨false, false⟩

/-- `TunnelCluster.Close`: under the pool lock, return if already closed;
otherwise set `closed` and close every slot. -/
def clusterClose (tc : TunnelCluster) : TunnelCluster :=
  if tc.closed then tc
  else ⟨tc.connections.map TunnelConnection.close, true⟩

/-! ## `TunnelCluster.Start` (cluster.go) -/

/-- The pool size computed at the top of `Start`:
`maxConn := tc.info.MaxConn; if maxConn <= 0 { maxConn = 10 }`. -/
def startTargetSize (maxConn : Int) : Int :=
  if maxConn ≤ 0 then 10 else maxConn

/-- `TunnelCluster.Start`.  The hostname resolution
`url.Parse(tc.info.URL)` followed by `tunnelURL.Hostname()` is a call into
the Go standard library; like the dial outcomes fed to `connect` and
`handleConnection`, its result is supplied as an explicit input
`parsedHost`: `none` models `url.Parse` returning an error, `some h` a
successful parse whose `Hostname()` is `h`.  `Start` computes the target
size, then: on a parse error returns the `invalidURL` error having created
no slot; on an empty hostname returns the `noHost` error having created no
slot; otherwise appends `targetSize` fresh inactive slots to `connections`
(each gets a `connect` goroutine launched for it) and returns `nil`. -/
def clusterStart (tc : TunnelCluster) (info : TunnelInfo)
    (parsedHost : Option (List Char)) : TunnelCluster × Option GoError :=
  let size := startTargetSize info.maxConn
  match parsedHost with
  | none => (tc, some (.invalidURL info.url))
  | some [] => (tc, some (.noHost info.url))
  | some (_ :: _) =>
    ({ tc with connections :=
        tc.connections ++ List.replicate size.toNat ⟨false, false⟩ }, none)

/-! ## Health sweep and per-slot operations (cluster.go) -/

/-- `TunnelCluster.checkConnections`: under the pool lock, do nothing when
the pool is closed; otherwise launch `go conn.connect(...)` for every slot
whose `isActive()` is false.  The sweep itself mutates no state; we return
the indices of the slots for which a connect goroutine is launched. -/
def checkConnections (tc : TunnelCluster) : List Nat :=
  if tc.closed then []
  else (List.range tc.connections.length).filter fun i =>
    match tc.connections.get? i with
    | some c => !c.isActive
    | none => false

/-- The body of `TunnelConnection.connect` once the goroutine runs, with the
outcome of `net.DialTimeout` supplied as `dialOk`: if the slot is already
active, return unchanged; on dial failure send a `dialFailed` error event
and leave the slot untouched; on success store the socket and set `active`
(and spawn `handleConnection`).  Note that `connect` never consults the
cluster's `closed` flag. -/
def connectRun (c : TunnelConnection) (dialOk : Bool) (addr : String) :
    TunnelConnection × List GoError :=
  if c.active then (c, [])
  else if dialOk then (⟨true, true⟩, [])
  else (c, [.dialFailed addr])

/-- One iteration of `handleConnection`'s `for` loop when the context is not
cancelled, with the outcome of `connectToLocal` supplied as `localDialOk`:
on failure the error is sent to `events.Error` and the loop `continue`s —
the slot's `active` flag is not written; on success `proxyConnection` is
spawned as a goroutine and the loop continues as well. -/
def handleConnectionStep (c : TunnelConnection) (localDialOk : Bool)
    (localAddr : String) : TunnelConnection × List GoError :=
  if localDialOk then (c, [])
  else (c, [.localDialFailed localAddr])

/-! ## Pool transition system (cluster.go concurrency)

`checkConnections` launches `connect` goroutines that run later, interleaved
with `Close` and further sweeps.  `PoolState` records the cluster state plus
the launched-but-not-yet-run connect goroutines; `PoolStep` is one scheduler
step. -/

/-- Pool state: cluster plus the indices of slots with a launched,
not-yet-executed `connect` goroutine. -/
structure PoolState where
  cluster : TunnelCluster
  pending : List Nat
deriving DecidableEq

/-- Replace slot `i` by the result of running its `connect` goroutine. -/
def runConnectAt (conns : List TunnelConnection) (i : Nat) (dialOk : Bool)
    (addr : String) : List TunnelConnection :=
  match conns.get? i with
  | some c => conns.set i (connectRun c dialOk addr).1
  | none => conns

/-- One interleaving step of the pool: a health sweep launches connects for
the currently inactive slots (none when closed); `Close` runs; or one
pending `connect` goroutine executes with some dial outcome. -/
inductive PoolStep : PoolState → PoolState → Prop
  | sweep (s : PoolState) :
      PoolStep s ⟨s.cluster, s.pending ++ checkConnections s.cluster⟩
  | closeStep (s : PoolState) :
      PoolStep s ⟨clusterClose s.cluster, s.pending⟩
  | runConnect (s : PoolState) (i : Nat) (dialOk : Bool) (addr : String)
      (h : i ∈ s.pending) :
      PoolStep s ⟨⟨runConnectAt s.cluster.connections i dialOk addr,
        s.cluster.closed⟩, s.pending.erase i⟩

/-! ## `proxyConnection` (cluster.go) -/

/-- The per-slot resources visible to `proxyConnection`: the slot's
`active` flag, the broker-side socket `conn.conn`, and the local-side
socket passed in as `localConn`. -/
structure ProxyState where
  active : Bool
  brokerOpen : Bool
  localOpen : Bool
deriving DecidableEq

/-- `proxyConnection`, observed when either copy direction completes: the
`<-done` receive unblocks, the function returns, and its deferred
`localConn.Close()` runs.  The function's only own state effect is that
close — it never writes the slot's `active` flag and never closes the
broker socket (`conn.close()` is deferred in `handleConnection`, which
returns only on context cancellation). -/
def proxyConnectionExit (s : ProxyState) : ProxyState :=
  { s with localOpen := false }

/-- `TunnelConnection.close` acting on the per-slot resources: a no-op when
inactive, otherwise clear `active` and close the broker socket (the local
socket is not held by the slot). -/
def proxyConnClose (s : ProxyState) : ProxyState :=
  if !s.active then s else { s with active := false, brokerOpen := false }

/-! ## Session (tunnel.go `Tunnel`, api.go) -/

/-- `Tunnel` observable state for `Close`: the `closed` flag, whether
`cancel()` has fired, the cluster (nil until `Open` succeeds), and the
number of tokens buffered in the `events.Close` channel (capacity 1). -/
structure TunnelState where
  closed : Bool
  cancelled : Bool
  cluster : Option TunnelCluster
  closeChSize : Nat
deriving DecidableEq

/-- `Tunnel.Close`: under the lock, return `nil` at once when already
closed; otherwise set `closed`, cancel the context, close the cluster when
present, send on `events.Close` unless the buffer is full
(`select`/`default`), and return `nil`. -/
def tunnelClose (t : TunnelState) : TunnelState × Option GoError :=
  if t.closed then (t, none)
  else
    ({ closed := true
       cancelled := true
       cluster := t.cluster.map clusterClose
       closeChSize := if t.closeChSize < 1 then t.closeChSize + 1
         else t.closeChSize }, none)

/-- The channel state `Tunnel.URL` selects over: the buffered `events.URL`
and `events.Error` channels and whether `ctx.Done()` is closed.  The
`events.Error` channel is the one `TunnelConnection.connect` and
`handleConnection` send their per-slot errors to. -/
structure EventsState where
  urlCh : List String
  errCh : List GoError
  ctxDone : Bool
deriving DecidableEq

/-- The three possible returns of `Tunnel.URL`. -/
inductive URLOutcome where
  | url (u : String)
  | err (e : GoError)
  | canceled
deriving DecidableEq

/-- The `select` in `Tunnel.URL`: it blocks until at least one case is
ready and returns along a ready case; when several are ready, Go chooses
among them, so any ready case is a possible outcome. -/
inductive URLSelect : EventsState → URLOutcome → Prop
  | url (es : EventsState) (u : String) (rest : List String)
      (h : es.urlCh = u :: rest) : URLSelect es (.url u)
  | err (es : EventsState) (e : GoError) (rest : List GoError)
      (h : es.errCh = e :: rest) : URLSelect es (.err e)
  | canceled (es : EventsState) (h : es.ctxDone = true) :
      URLSelect es .canceled

/-- A per-slot dial failure in `connect` sends its error to
`cluster.events.Error` — the same channel `Tunnel.URL` reads. -/
def emitSlotError (es : EventsState) (e : GoError) : EventsState :=
  { es with errCh := es.errCh ++ [e] }

/-- The `Tunnel` fields established by `NewTunnel`. -/
structure TunnelInit where
  options : TunnelOptions
  closed : Bool
  cancelled : Bool
deriving DecidableEq

/-- The option defaulting at the top of `NewTunnel`: a nil `options`
becomes a zero struct; `Port` is overwritten with the `port` argument;
`Host` and `LocalHost` receive their defaults exactly when empty. -/
def defaultedOptions (port : Int) (options : Option TunnelOptions) :
    TunnelOptions :=
  let o := options.getD ⟨0, "", "", "", false⟩
  let o := { o with port := port }
  let o := if o.host = "" then { o with host := "https://localtunnel.me" }
    else o
  if o.localHost = "" then { o with localHost := "localhost" } else o

/-- `NewTunnel`: defaults the options, creates the context and event
channels, and returns the tunnel with a `nil` error — unconditionally. -/
def NewTunnel (port : Int) (options : Option TunnelOptions) :
    TunnelInit × Option GoError :=
  (⟨defaultedOptions port options, false, false⟩, none)

/-- `Connect` (api.go): `return NewTunnel(port, options)`. -/
def Connect (port : Int) (options : Option TunnelOptions) :
    TunnelInit × Option GoError :=
  NewTunnel port options

/-! ## Helper lemmas -/

/-- A closed slot is inactive, whichever branch `close` took. -/
theorem conn_close_inactive (c : TunnelConnection) :
    (TunnelConnection.close c).active = false := by
  unfold TunnelConnection.close
  by_cases h : c.active <;> simp [h]

/-- The cluster is marked closed after `Close`, whichever branch ran. -/
theorem clusterClose_closed (tc : TunnelCluster) :
    (clusterClose tc).closed = true := by
  unfold clusterClose
  by_cases h : tc.closed <;> simp [h]

/-- `Close` on an already-closed cluster returns it unchanged. -/
theorem clusterClose_of_closed (tc : TunnelCluster) (h : tc.closed = true) :
    clusterClose tc = tc := by
  simp [clusterClose, h]

/-- A closed pool's health sweep launches no dial. -/
theorem checkConnections_of_closed (tc : TunnelCluster)
    (h : tc.closed = true) : checkConnections tc = [] := by
  simp [checkConnections, h]

/-! ## Claims -/

/-- Claim C1: the spec scenario — input
`"GET /x HTTP/1.1\r\nHost: foo\r\n\r\nBODY"` with replacement host
`"localhost:8080"` — is claimed to produce
`"GET /x HTTP/1.1\r\nHost: localhost:8080\r\n\r\nBODY"`.  The code instead
produces `"GET /x HTTP/1.1\r\nHost: localhost:8080\r\n\r\n"`: the final
`io.Copy(writer, reader)` reads the underlying reader, which the
`bufio.Scanner` already drained into its buffer, so `BODY` is dropped. -/
theorem transform_scenario_drops_body :
    transform "localhost:8080".toList
        "GET /x HTTP/1.1\r\nHost: foo\r\n\r\nBODY".toList
      = ("GET /x HTTP/1.1\r\nHost: localhost:8080\r\n\r\n".toList, none)
    ∧ transform "localhost:8080".toList
        "GET /x HTTP/1.1\r\nHost: foo\r\n\r\nBODY".toList
      ≠ ("GET /x HTTP/1.1\r\nHost: localhost:8080\r\n\r\nBODY".toList, none) := by
  exact ⟨by decide, by decide⟩

/-- Claim C2, counterexample: on the empty stream `Transform` returns
`scanner.Err()`, which is `nil` after a clean end of stream — not the
claimed `MalformedStream` error.  It does write nothing. -/
theorem transform_empty_stream_no_error :
    transform "localhost:8080".toList [] = ([], none) := by decide

/-- Claim C2, amended: for every input stream that ends before a request
line can be read (in the model, the empty stream) `Transform` writes
nothing and returns `nil`; indeed on a pure in-memory stream `Transform`
never returns a non-nil error at all. -/
theorem transform_no_error (host input : List Char) :
    (transform host input).2 = none ∧ transform host [] = ([], none) := by
  constructor
  · unfold transform
    cases h : scannerTokens input <;> simp
  · rfl

/-- Claim C3, counterexample: the descriptor with the empty URL and
`maxConnections = 5 > 0`.  `url.Parse("")` succeeds with an empty `Host`,
so its `Hostname()` is `""` — the parse outcome is `some []` — and `Start`
returns the `noHost` error having created no slot, not the claimed 5
slots. -/
theorem clusterStart_no_host_creates_no_slot :
    (clusterStart ⟨[], false⟩ ⟨"id", "", 12345, 5⟩
        (some [])).1.connections.length = 0
    ∧ (clusterStart ⟨[], false⟩ ⟨"id", "", 12345, 5⟩ (some [])).2
      = some (.noHost "")
    ∧ (5 : Int) > 0 := by
  exact ⟨by decide, by decide, by decide⟩

/-- Claim C3, amended: for every descriptor whose public URL parses with a
nonempty hostname, `Start` creates `maxConnections` slots when
`maxConnections > 0` and exactly 10 slots when it is 0 or negative, and
returns no error; when `url.Parse` fails, or the parsed hostname is empty,
`Start` returns an error having created no slot. -/
theorem clusterStart_slot_count (info : TunnelInfo) (h : List Char)
    (hne : h ≠ []) :
    ((clusterStart ⟨[], false⟩ info (some h)).1.connections.length : Int)
      = (if info.maxConn > 0 then info.maxConn else 10)
    ∧ (clusterStart ⟨[], false⟩ info (some h)).2 = none
    ∧ (clusterStart ⟨[], false⟩ info none).1.connections.length = 0
    ∧ (clusterStart ⟨[], false⟩ info none).2 = some (.invalidURL info.url)
    ∧ (clusterStart ⟨[], false⟩ info (some [])).1.connections.length = 0
    ∧ (clusterStart ⟨[], false⟩ info (some [])).2
      = some (.noHost info.url) := by
  obtain ⟨c, t, rfl⟩ : ∃ c t, h = c :: t := by
    cases h with
    | nil => exact absurd rfl hne
    | cons c t => exact ⟨c, t, rfl⟩
  refine ⟨?_, rfl, rfl, rfl, rfl, rfl⟩
  show ((List.replicate (startTargetSize info.maxConn).toNat
      (⟨false, false⟩ : TunnelConnection)).length : Int)
    = (if info.maxConn > 0 then info.maxConn else 10)
  simp only [List.length_replicate]
  unfold startTargetSize
  split <;> split <;> omega

/-- Witness for `clusterStart_slot_count` at a concrete descriptor; the
hostname `url.Parse("https://test.localtunnel.me").Hostname()` computes is
`"test.localtunnel.me"`. -/
theorem clusterStart_slot_count_witness :
    ((clusterStart ⟨[], false⟩ ⟨"t", "https://test.localtunnel.me", 12345, 5⟩
        (some "test.localtunnel.me".toList)).1.connections.length : Int)
      = (if (5 : Int) > 0 then 5 else 10)
    ∧ (clusterStart ⟨[], false⟩ ⟨"t", "https://test.localtunnel.me", 12345, 5⟩
        (some "test.localtunnel.me".toList)).2 = none
    ∧ (clusterStart ⟨[], false⟩ ⟨"t", "https://test.localtunnel.me", 12345, 5⟩
        none).1.connections.length = 0
    ∧ (clusterStart ⟨[], false⟩ ⟨"t", "https://test.localtunnel.me", 12345, 5⟩
        none).2 = some (.invalidURL "https://test.localtunnel.me")
    ∧ (clusterStart ⟨[], false⟩ ⟨"t", "https://test.localtunnel.me", 12345, 5⟩
        (some [])).1.connections.length = 0
    ∧ (clusterStart ⟨[], false⟩ ⟨"t", "https://test.localtunnel.me", 12345, 5⟩
        (some [])).2 = some (.noHost "https://test.localtunnel.me") :=
  clusterStart_slot_count ⟨"t", "https://test.localtunnel.me", 12345, 5⟩
    "test.localtunnel.me".toList (by decide)

/-- Claim C4, counterexample: a slot that is active (a successful broker
dial) whose local dial fails emits the error event but **stays active**
(`isActive` still true), and the health sweep launches no dial for it —
`checkConnections` only redials inactive slots. -/
theorem localDialFail_slot_stays_active :
    (handleConnectionStep ⟨true, true⟩ false "localhost:8080").1.isActive = true
    ∧ (handleConnectionStep ⟨true, true⟩ false "localhost:8080").2
      = [GoError.localDialFailed "localhost:8080"]
    ∧ checkConnections ⟨[⟨true, true⟩], false⟩ = [] := by
  exact ⟨by decide, by decide, by decide⟩

/-- Claim C4, amended: when a slot's local dial fails during the proxy
loop, an error event is emitted and the slot **remains active**;
`handleConnection` itself retries the local dial on its next loop
iteration, and the health-check pass does not launch `connect` for that
slot (the sweep only redials inactive slots); no other slot's state is
touched (the sweep mutates no slot at all). -/
theorem localDialFail_retry_in_loop (tc : TunnelCluster) (i : Nat)
    (c : TunnelConnection) (localAddr : String)
    (hget : tc.connections.get? i = some c) (hc : c.active = true) :
    (handleConnectionStep c false localAddr).1.isActive = true
    ∧ (handleConnectionStep c false localAddr).2
      = [GoError.localDialFailed localAddr]
    ∧ i ∉ checkConnections tc := by
  refine ⟨by simp [handleConnectionStep, TunnelConnection.isActive, hc],
    by simp [handleConnectionStep], ?_⟩
  intro hmem
  unfold checkConnections at hmem
  by_cases hcl : tc.closed
  · simp [hcl] at hmem
  · simp only [hcl] at hmem
    have := List.of_mem_filter hmem
    rw [hget] at this
    simp [TunnelConnection.isActive, hc] at this

/-- Witness for `localDialFail_retry_in_loop` at a concrete pool. -/
theorem localDialFail_retry_in_loop_witness :
    (handleConnectionStep ⟨true, true⟩ false "localhost:3000").1.isActive = true
    ∧ (handleConnectionStep ⟨true, true⟩ false "localhost:3000").2
      = [GoError.localDialFailed "localhost:3000"]
    ∧ 0 ∉ checkConnections ⟨[⟨true, true⟩], false⟩ :=
  localDialFail_retry_in_loop ⟨[⟨true, true⟩], false⟩ 0 ⟨true, true⟩
    "localhost:3000" rfl rfl

/-- Claim C5, counterexample: a reachable trace in which a health sweep
launches a `connect` for an inactive slot, `Close` then runs (marking the
pool closed, every slot inactive), and the already-launched `connect`
executes afterwards, dials successfully — `connect` never consults the
`closed` flag — and re-activates the slot.  The post-`Close` state thus
reaches a state with an active slot and a dial started after `Close`. -/
theorem close_race_reactivates_slot :
    PoolStep ⟨⟨[⟨false, false⟩], false⟩, []⟩ ⟨⟨[⟨false, false⟩], false⟩, [0]⟩
    ∧ PoolStep ⟨⟨[⟨false, false⟩], false⟩, [0]⟩ ⟨⟨[⟨false, false⟩], true⟩, [0]⟩
    ∧ PoolStep ⟨⟨[⟨false, false⟩], true⟩, [0]⟩ ⟨⟨[⟨true, true⟩], true⟩, []⟩
    ∧ (⟨⟨[⟨false, false⟩], true⟩, [0]⟩ : PoolState).cluster.closed = true
    ∧ (⟨true, true⟩ : TunnelConnection).isActive = true := by
  refine ⟨?_, ?_, ?_, rfl, rfl⟩
  · exact PoolStep.sweep ⟨⟨[⟨false, false⟩], false⟩, []⟩
  · exact PoolStep.closeStep ⟨⟨[⟨false, false⟩], false⟩, [0]⟩
  · exact PoolStep.runConnect ⟨⟨[⟨false, false⟩], true⟩, [0]⟩ 0 true
      "broker:1234" (by decide)

/-- Claim C5, amended: once `Close` has run, the `closed` flag persists
across every further step, every subsequent health sweep observes `closed`
and launches no dial, and `Close` itself deactivates every slot of the
cluster it closed; however a `connect` goroutine launched before `Close`
may still execute afterwards and re-activate its slot, since `connect`
does not check the `closed` flag (see the counterexample). -/
theorem after_close_no_sweep_dial (tc : TunnelCluster) (s s' : PoolState)
    (hstep : PoolStep s s') (hclosed : s.cluster.closed = true)
    (hopen : tc.closed = false) :
    s'.cluster.closed = true
    ∧ checkConnections s'.cluster = []
    ∧ ∀ c ∈ (clusterClose tc).connections, c.active = false := by
  have h1 : s'.cluster.closed = true := by
    cases hstep with
    | sweep => exact hclosed
    | closeStep => exact clusterClose_closed s.cluster
    | runConnect i dialOk addr h => exact hclosed
  refine ⟨h1, checkConnections_of_closed _ h1, ?_⟩
  intro c hc
  unfold clusterClose at hc
  simp only [hopen] at hc
  simp only [Bool.false_eq_true, if_false, List.mem_map] at hc
  obtain ⟨c0, _, rfl⟩ := hc
  exact conn_close_inactive c0

/-- Witness for `after_close_no_sweep_dial`: a closed one-slot pool
stepping by a (no-op) health sweep. -/
theorem after_close_no_sweep_dial_witness :
    (⟨⟨[], true⟩, ([] : List Nat)⟩ : PoolState).cluster.closed = true
    ∧ checkConnections (⟨⟨[], true⟩, ([] : List Nat)⟩ : PoolState).cluster = []
    ∧ ∀ c ∈ (clusterClose ⟨[⟨true, true⟩], false⟩).connections,
        c.active = false :=
  after_close_no_sweep_dial ⟨[⟨true, true⟩], false⟩ ⟨⟨[], true⟩, []⟩
    ⟨⟨[], true⟩, []⟩ (PoolStep.sweep ⟨⟨[], true⟩, []⟩) rfl rfl

/-- Claim C6, counterexample: when either copy direction completes,
`proxyConnection` returns and its deferred close shuts the local socket
only — the slot stays active and the broker socket stays open, contrary to
the claim that the slot is deactivated and both sockets are closed. -/
theorem proxy_exit_leaves_slot_active :
    (proxyConnectionExit ⟨true, true, true⟩).active = true
    ∧ (proxyConnectionExit ⟨true, true, true⟩).brokerOpen = true
    ∧ (proxyConnectionExit ⟨true, true, true⟩).localOpen = false := by
  exact ⟨rfl, rfl, rfl⟩

/-- Claim C6, amended: when either direction reaches end-of-stream or
errors, `proxyConnection` exits and closes only the local-side socket,
leaving the slot's `active` flag and the broker socket untouched; the slot
is deactivated and the broker socket closed only when
`TunnelConnection.close` later runs (deferred in `handleConnection`, which
returns only on context cancellation). -/
theorem proxy_exit_closes_local_only (s : ProxyState) (h : s.active = true) :
    (proxyConnectionExit s).active = s.active
    ∧ (proxyConnectionExit s).brokerOpen = s.brokerOpen
    ∧ (proxyConnectionExit s).localOpen = false
    ∧ (proxyConnClose (proxyConnectionExit s)).active = false
    ∧ (proxyConnClose (proxyConnectionExit s)).brokerOpen = false := by
  refine ⟨rfl, rfl, rfl, ?_, ?_⟩ <;>
    simp [proxyConnClose, proxyConnectionExit, h]

/-- Witness for `proxy_exit_closes_local_only` on a fully live slot. -/
theorem proxy_exit_closes_local_only_witness :
    (proxyConnectionExit ⟨true, true, true⟩).active
      = (⟨true, true, true⟩ : ProxyState).active
    ∧ (proxyConnectionExit ⟨true, true, true⟩).brokerOpen
      = (⟨true, true, true⟩ : ProxyState).brokerOpen
    ∧ (proxyConnectionExit ⟨true, true, true⟩).localOpen = false
    ∧ (proxyConnClose (proxyConnectionExit ⟨true, true, true⟩)).active = false
    ∧ (proxyConnClose (proxyConnectionExit ⟨true, true, true⟩)).brokerOpen
      = false :=
  proxy_exit_closes_local_only ⟨true, true, true⟩ rfl

/-- Claim C7: `Tunnel.Close` is idempotent — a second `Close` finds the
`closed` flag set, changes nothing, and returns `nil` exactly like the
first; likewise `TunnelCluster.Close`. -/
theorem close_idempotent (t : TunnelState) :
    tunnelClose (tunnelClose t).1 = tunnelClose t
    ∧ (tunnelClose t).2 = none
    ∧ ∀ tc : TunnelCluster, clusterClose (clusterClose tc) = clusterClose tc := by
  refine ⟨?_, ?_, ?_⟩
  · by_cases h : t.closed <;> simp [tunnelClose, h]
  · by_cases h : t.closed <;> simp [tunnelClose, h]
  · intro tc
    exact clusterClose_of_closed _ (clusterClose_closed tc)

/-- Claim C8, counterexample: a per-slot dial failure sends its error to
the shared `events.Error` channel; in a state where that channel holds the
error and no URL is buffered and the context is live, `Tunnel.URL` must
return exactly that non-fatal per-slot error — so per-slot errors do
determine `URL`'s result. -/
theorem url_returns_slot_error :
    URLSelect (emitSlotError ⟨[], [], false⟩ (.dialFailed "broker:1234"))
      (.err (.dialFailed "broker:1234"))
    ∧ ∀ r, URLSelect (emitSlotError ⟨[], [], false⟩
        (.dialFailed "broker:1234")) r →
        r = .err (.dialFailed "broker:1234") := by
  constructor
  · exact URLSelect.err _ _ [] rfl
  · intro r h
    cases h with
    | url u rest h => exact absurd h (by simp [emitSlotError])
    | err e rest h =>
      simp only [emitSlotError, List.nil_append, List.cons.injEq] at h
      rw [h.1]
    | canceled h => exact absurd h (by simp [emitSlotError])

/-- Claim C8, amended: `Tunnel.URL` blocks until at least one of the three
select cases is ready and its result always comes from a ready case — a
buffered URL, a buffered error, or the fired cancellation; but since the
error channel is shared, the error case covers non-fatal per-slot errors
as well as fatal ones, so a per-slot error can determine the result. -/
theorem urlOutcome_of_select (es : EventsState) (r : URLOutcome)
    (h : URLSelect es r) :
    (∃ u rest, es.urlCh = u :: rest ∧ r = .url u)
    ∨ (∃ e rest, es.errCh = e :: rest ∧ r = .err e)
    ∨ (es.ctxDone = true ∧ r = .canceled) := by
  cases h with
  | url u rest h => exact .inl ⟨u, rest, h, rfl⟩
  | err e rest h => exact .inr (.inl ⟨e, rest, h, rfl⟩)
  | canceled h => exact .inr (.inr ⟨h, rfl⟩)

/-- Witness for `urlOutcome_of_select` with a buffered URL. -/
theorem urlOutcome_of_select_witness :
    (∃ u rest,
        (⟨["https://t.localtunnel.me"], [], false⟩ : EventsState).urlCh
          = u :: rest
        ∧ URLOutcome.url "https://t.localtunnel.me" = URLOutcome.url u)
    ∨ (∃ e rest,
        (⟨["https://t.localtunnel.me"], [], false⟩ : EventsState).errCh
          = e :: rest
        ∧ URLOutcome.url "https://t.localtunnel.me" = URLOutcome.err e)
    ∨ ((⟨["https://t.localtunnel.me"], [], false⟩ : EventsState).ctxDone = true
        ∧ URLOutcome.url "https://t.localtunnel.me" = URLOutcome.canceled) :=
  urlOutcome_of_select ⟨["https://t.localtunnel.me"], [], false⟩
    (.url "https://t.localtunnel.me") (URLSelect.url _ _ [] rfl)

/-- Claim C9: for every port and options value (including nil),
`NewTunnel` returns a tunnel and a `nil` error — the error result is
vacuous — and `Connect` simply delegates to `NewTunnel`. -/
theorem newTunnel_never_fails (port : Int) (options : Option TunnelOptions) :
    (NewTunnel port options).2 = none
    ∧ Connect port options = NewTunnel port options :=
  ⟨rfl, rfl⟩

/-- Claim C10: the options `NewTunnel` stores: `Port` is always overwritten
with the `port` argument, `Host` and `LocalHost` get their defaults exactly
when empty, and `Subdomain` and `LocalHTTPS` are left unchanged. -/
theorem newTunnel_option_mutation (port : Int) (o : TunnelOptions) :
    (NewTunnel port (some o)).1.options.port = port
    ∧ (NewTunnel port (some o)).1.options.host
      = (if o.host = "" then "https://localtunnel.me" else o.host)
    ∧ (NewTunnel port (some o)).1.options.localHost
      = (if o.localHost = "" then "localhost" else o.localHost)
    ∧ (NewTunnel port (some o)).1.options.subdomain = o.subdomain
    ∧ (NewTunnel port (some o)).1.options.localHTTPS = o.localHTTPS := by
  unfold NewTunnel defaultedOptions
  by_cases h1 : o.host = "" <;> by_cases h2 : o.localHost = "" <;>
    simp [h1, h2]

end Vrata
